import Mathlib

/-!
Verification of the mode-6 NTP control-packet module `ntpq.py` (ntplib).

The Python module is shallowly embedded below.  Python byte strings become
`List Nat` (one entry per byte); Python's arbitrary-precision non-negative
integers become `Nat`; the text operations of `decode_readvar` act on
`List Char` obtained from the body bytes.  Python exceptions are modelled by
`Except PyErr`: the module's own `NTPException` keeps its message, while
uncaught builtin exceptions (`struct.error` escaping `decode_association`,
`KeyError`, `ValueError`, `TypeError`) are separate constructors, since which
exception escapes is exactly what several claims are about.  Timestamps are
embedded as `ℚ` and the current wall-clock time (`time.time()`) is passed as
an explicit `now` parameter.
-/

/-- Exceptions that can escape the embedded functions.  `ntpException` is the
module's own `NTPException`; the others are Python builtins that the source
does not catch. -/
inductive PyErr where
  | ntpException (msg : String)
  | structError
  | keyError
  | valueError
  | typeError
deriving DecidableEq, Repr

/-- A value stored in the `decode_readvar` result dictionary: either the raw
string of a `key=value` pair or a numeric timestamp (for `rec`/`reftime` and
the derived `when` entry). -/
inductive VarVal where
  | str (s : String)
  | num (q : ℚ)
deriving DecidableEq, Repr

/-- The `self.data` dictionary of a readvar packet: association list with
first-position update, mirroring Python dict assignment. -/
def VarMap := List (String × VarVal)
deriving DecidableEq, Repr

/-- `m[k] = v`: replace the value at an existing key in place, otherwise
append the binding. -/
def VarMap.set : VarMap → String → VarVal → VarMap
  | [], k, v => [(k, v)]
  | (k', v') :: rest, k, v =>
      if k' = k then (k, v) :: rest else (k', v') :: VarMap.set rest k v

/-- Dictionary lookup `m.get(k)`. -/
def VarMap.get? : VarMap → String → Option VarVal
  | [], _ => none
  | (k', v') :: rest, k => if k' = k then some v' else VarMap.get? rest k

/-- The dictionary returned by `decode_association`: one field per key of the
Python dict literal. -/
structure Assoc where
  association_id : Nat
  peer_config : Nat
  peer_authenable : Nat
  peer_authentic : Nat
  peer_reach : Nat
  reserved : Nat
  peer_selection : Nat
  peer_event_counter : Nat
  peer_event_code : Nat
deriving DecidableEq, Repr

/-- `assoc.items()`: the key/value pairs of the association dict, in the
order of the dict literal in `decode_association`. -/
def Assoc.items (a : Assoc) : List (String × VarVal) :=
  [("association_id", .num a.association_id),
   ("peer_config", .num a.peer_config),
   ("peer_authenable", .num a.peer_authenable),
   ("peer_authentic", .num a.peer_authentic),
   ("peer_reach", .num a.peer_reach),
   ("reserved", .num a.reserved),
   ("peer_selection", .num a.peer_selection),
   ("peer_event_counter", .num a.peer_event_counter),
   ("peer_event_code", .num a.peer_event_code)]

/-- `decode_association(data)`: `struct.unpack("!H B B", data)` demands
exactly 4 bytes and raises `struct.error` (uncaught) otherwise; the two
flag bytes are split by shifts and masks. -/
def decode_association (data : List Nat) : Except PyErr Assoc :=
  match data with
  | [b0, b1, b2, b3] =>
      .ok { association_id := b0 * 256 + b1
            peer_config := b2 >>> 7 &&& 0x1
            peer_authenable := b2 >>> 6 &&& 0x1
            peer_authentic := b2 >>> 5 &&& 0x1
            peer_reach := b2 >>> 4 &&& 0x1
            reserved := b2 >>> 3 &&& 0x1
            peer_selection := b2 &&& 0x7
            peer_event_counter := b3 >>> 4 &&& 0xf
            peer_event_code := b3 &&& 0xf }
  | _ => .error .structError

/-- The decoded body carried in `self.data`: absent before decoding, a list
of associations after `decode_readstat`, a dictionary after
`decode_readvar`. -/
inductive PacketData where
  | no_data
  | assocList (l : List Assoc)
  | varMap (m : VarMap)
deriving DecidableEq, Repr

/-- The attributes of an `NTPControlPacket` instance.  `clocksource`,
`system_event_counter`, `system_event_code` and `data` only exist in Python
after `from_data`; here they are always present, zero / `no_data` before. -/
structure NTPControlPacket where
  leap : Nat
  version : Nat
  mode : Nat
  response_bit : Nat
  error_bit : Nat
  more_bit : Nat
  opcode : Nat
  sequence : Nat
  status : Nat
  association_id : Nat
  offset : Nat
  count : Nat
  clocksource : Nat
  system_event_counter : Nat
  system_event_code : Nat
  data : PacketData
deriving DecidableEq, Repr

/-- `NTPControlPacket._OPCODES` as a partial map from op name to number. -/
def OPCODES (op : String) : Option Nat :=
  if op = "readstat" then some 1 else if op = "readvar" then some 2 else none

/-- `NTPControlPacket(version, op, association_id, sequence)`: the
constructor; an op name outside `_OPCODES` raises `KeyError`. -/
def NTPControlPacket.init (version : Nat) (op : String)
    (association_id : Nat) (sequence : Nat) : Except PyErr NTPControlPacket :=
  match OPCODES op with
  | some oc =>
      .ok { leap := 0, version := version, mode := 6,
            response_bit := 0, error_bit := 0, more_bit := 0,
            opcode := oc, sequence := sequence, status := 0,
            association_id := association_id, offset := 0, count := 0,
            clocksource := 0, system_event_counter := 0,
            system_event_code := 0, data := .no_data }
  | none => .error .keyError

/-- `NTPControlPacket()`: the all-defaults constructor call used before
`from_data` (version 2, op `"readstat"`, association 0, sequence 1). -/
def NTPControlPacket.new : NTPControlPacket :=
  { leap := 0, version := 2, mode := 6,
    response_bit := 0, error_bit := 0, more_bit := 0,
    opcode := 1, sequence := 1, status := 0,
    association_id := 0, offset := 0, count := 0,
    clocksource := 0, system_event_counter := 0,
    system_event_code := 0, data := .no_data }

/-- Big-endian bytes of one `!H` field, as written by `struct.pack` for a
value that passed the range check. -/
def packH (v : Nat) : List Nat := [v / 256, v % 256]

/-- `NTPControlPacket.to_data()`: `struct.pack("!B B H H H H H", ...)`.
`struct.error` (any field out of range for its format code) is caught and
re-raised as `NTPException("Invalid NTP packet fields.")`. -/
def NTPControlPacket.to_data (p : NTPControlPacket) : Except PyErr (List Nat) :=
  let b0 := p.leap <<< 6 ||| p.version <<< 3 ||| p.mode
  let b1 := p.response_bit <<< 7 ||| p.error_bit <<< 6 ||| p.more_bit <<< 5 ||| p.opcode
  if b0 ≤ 255 ∧ b1 ≤ 255 ∧ p.sequence ≤ 65535 ∧ p.status ≤ 65535 ∧
      p.association_id ≤ 65535 ∧ p.offset ≤ 65535 ∧ p.count ≤ 65535 then
    .ok ([b0, b1] ++ packH p.sequence ++ packH p.status ++
      packH p.association_id ++ packH p.offset ++ packH p.count)
  else
    .error (.ntpException "Invalid NTP packet fields.")

/-- Python `s.split(sep)` for a one-character separator: always returns one
more segment than there are separators; on the empty string it returns
`[""]`. -/
def pySplit (sep : Char) : List Char → List (List Char)
  | [] => [[]]
  | c :: rest =>
      let r := pySplit sep rest
      if c = sep then [] :: r
      else
        match r with
        | seg :: segs => (c :: seg) :: segs
        | [] => [[c]]

/-- Python `s.replace("\r\n", "")`: remove every (non-overlapping, leftmost
first) occurrence of the two-character sequence. -/
def removeCRLF : List Char → List Char
  | [] => []
  | '\r' :: '\n' :: rest => removeCRLF rest
  | c :: rest => c :: removeCRLF rest

/-- The characters Python `str.lstrip()` strips by default. -/
def pySpace (c : Char) : Bool :=
  c = ' ' || c = '\t' || c = '\n' || c = '\r' || c = '\x0b' || c = '\x0c'

/-- Python `s.lstrip()`. -/
def pyLstrip (s : List Char) : List Char := s.dropWhile pySpace

/-- Value of one hexadecimal digit, if the character is one. -/
def hexDigit? (c : Char) : Option Nat :=
  if '0' ≤ c ∧ c ≤ '9' then some (c.toNat - '0'.toNat)
  else if 'a' ≤ c ∧ c ≤ 'f' then some (c.toNat - 'a'.toNat + 10)
  else if 'A' ≤ c ∧ c ≤ 'F' then some (c.toNat - 'A'.toNat + 10)
  else none

/-- Python `int(s, 16)` restricted to plain strings of hex digits (the only
shape the wire format produces); anything else is a `ValueError` (`none`). -/
def parseHex (s : List Char) : Option Nat :=
  match s with
  | [] => none
  | _ =>
      s.foldlM (fun acc c => (hexDigit? c).map (fun d => acc * 16 + d)) 0

/-- Seconds between the NTP epoch (1900-01-01) and the system epoch
(1970-01-01). -/
def NTP_DELTA : ℚ := 2208988800

/-- Modelled from the spec: `ntplib._to_time(integ, frac)`, the collaborator
NTP-time utility (its source is not part of this repository's `src/`):
combine the integer and fractional timestamp fields into seconds,
`integ + frac / 2^32`. -/
def to_time (integ frac : Nat) : ℚ := (integ : ℚ) + (frac : ℚ) / 4294967296

/-- Modelled from the spec: `ntplib.ntp_to_system_time(t)`, the collaborator
NTP-time utility (its source is not part of this repository's `src/`):
subtract the 70-year epoch delta, adding `2^32` seconds first when the
converted value would be negative (era rollover). -/
def ntp_to_system_time (t : ℚ) : ℚ :=
  if t - NTP_DELTA < 0 then t + 4294967296 - NTP_DELTA else t - NTP_DELTA

/-- One iteration of the `for d in buf` loop of `decode_readvar`:
`key, val = d.replace("\r\n", "").lstrip().split("=")` (the 2-tuple
unpacking raises `ValueError` unless the split has exactly two parts), then
either the hex-timestamp conversion for `rec`/`reftime` or the raw string. -/
def processSegment (m : VarMap) (d : List Char) : Except PyErr VarMap :=
  match pySplit '=' (pyLstrip (removeCRLF d)) with
  | [key, val] =>
      let k := String.mk key
      if k = "rec" ∨ k = "reftime" then
        match (pySplit '.' val).mapM parseHex with
        | some [int_part, frac_part] =>
            .ok (VarMap.set m k (.num (ntp_to_system_time (to_time int_part frac_part))))
        | some _ => .error .valueError
        | none => .error .valueError
      else .ok (VarMap.set m k (.str (String.mk val)))
  | _ => .error .valueError

/-- `NTPControlPacket.decode_readvar(header_len, data)`: split the body text
on `,`, process each segment, then add `when = time.time() - data['rec']`
(`KeyError` when `rec` is absent; the current time is the explicit `now`). -/
def decode_readvar (now : ℚ) (header_len : Nat) (data : List Nat) :
    Except PyErr VarMap := do
  let buf := pySplit ',' ((data.drop header_len).map Char.ofNat)
  let m ← buf.foldlM processSegment ([] : VarMap)
  match VarMap.get? m "rec" with
  | some (.num r) => .ok (VarMap.set m "when" (.num (now - r)))
  | some (.str _) => .error .typeError
  | none => .error .keyError

/-- The body of the `for offset in range(...)` loop of `decode_readstat`:
decode the slice `data[offset:offset+4]` at each offset in turn, collecting
the association dicts (`self.data.append`). -/
def decode_readstat_go (data : List Nat) : List Nat → Except PyErr (List Assoc)
  | [] => .ok []
  | off :: rest =>
      match decode_association ((data.drop off).take 4) with
      | .ok a =>
          match decode_readstat_go data rest with
          | .ok l => .ok (a :: l)
          | .error e => .error e
      | .error e => .error e

/-- `NTPControlPacket.decode_readstat(header_len, data)`: the loop above
over Python's `range(header_len, len(data), 4)`, which has
`(len(data) - header_len + 3) / 4` elements. -/
def decode_readstat (header_len : Nat) (data : List Nat) :
    Except PyErr (List Assoc) :=
  decode_readstat_go data
    (List.range' header_len ((data.length - header_len + 3) / 4) 4)

/-- `NTPControlPacket.from_data(data)`: unpack the 12-byte header
(`NTPException` when fewer than 12 bytes are present), populate the header
attributes by shifts and masks, then dispatch on
`opcodes_by_number[self.opcode]` — a `KeyError` for any opcode other than
1 or 2.  Note `self.status` is never assigned, and `self.leap` is
reassigned from bit 14 of the status word. -/
def NTPControlPacket.from_data (p : NTPControlPacket) (now : ℚ)
    (data : List Nat) : Except PyErr NTPControlPacket :=
  if data.length < 12 then .error (.ntpException "Invalid NTP packet.")
  else
    let b0 := data.getD 0 0
    let b1 := data.getD 1 0
    let u2 := data.getD 2 0 * 256 + data.getD 3 0
    let u3 := data.getD 4 0 * 256 + data.getD 5 0
    let u4 := data.getD 6 0 * 256 + data.getD 7 0
    let u5 := data.getD 8 0 * 256 + data.getD 9 0
    let u6 := data.getD 10 0 * 256 + data.getD 11 0
    let p' := { p with
      leap := u3 >>> 14 &&& 0x1
      version := b0 >>> 3 &&& 0x7
      mode := b0 &&& 0x7
      response_bit := b1 >>> 7 &&& 0x1
      error_bit := b1 >>> 6 &&& 0x1
      more_bit := b1 >>> 5 &&& 0x1
      opcode := b1 &&& 0x1f
      sequence := u2
      clocksource := u3 >>> 8 &&& 0x1f
      system_event_counter := u3 >>> 4 &&& 0xf
      system_event_code := u3 &&& 0xf
      association_id := u4
      offset := u5
      count := u6 }
    if p'.opcode = 1 then
      match decode_readstat 12 data with
      | .ok l => .ok { p' with data := .assocList l }
      | .error e => .error e
    else if p'.opcode = 2 then
      match decode_readvar now 12 data with
      | .ok m => .ok { p' with data := .varMap m }
      | .error e => .error e
    else .error .keyError

/-- Byte values of an ASCII string, for writing wire payloads readably. -/
def strBytes (s : String) : List Nat := s.data.map Char.toNat

/-- `NTPControlClient.request(host, op=..., association_id=...)`, with the
socket layer abstracted: `server op aid` is the payload of the (first)
datagram whose source address matches the resolved server, and `log`
records each request datagram actually sent, in order.  The method builds
`NTPControlPacket(op=op, association_id=association_id)` (version 2,
sequence 1), sends its `to_data()` bytes, then decodes the reply into a
fresh `NTPControlPacket()` via `from_data`. -/
def request (server : String → Nat → List Nat) (now : ℚ)
    (log : List (String × Nat)) (op : String) (aid : Nat) :
    Except PyErr (NTPControlPacket × List (String × Nat)) := do
  let q ← NTPControlPacket.init 2 op aid 1
  let _d ← q.to_data
  let log' := log ++ [(op, aid)]
  let ncp ← NTPControlPacket.new.from_data now (server op aid)
  .ok (ncp, log')

/-- The `for k, v in assoc.items(): readvar_data.data[k] = v` loop of
`composite_associnfo`: overlay the association's fields onto the readvar
dictionary. -/
def overlayAssoc (a : Assoc) (m : VarMap) : VarMap :=
  a.items.foldl (fun m kv => VarMap.set m kv.1 kv.2) m

/-- The `for assoc in ncp.data` loop of `composite_associnfo`: one readvar
request per association, overlay its status fields, collect the merged
dictionaries in order (`data.append`).  `readvar_data.data[k] = v` on a
non-dict body would be a `TypeError`. -/
def composite_loop (server : String → Nat → List Nat) (now : ℚ)
    (assocs : List Assoc) (log : List (String × Nat)) :
    Except PyErr (List VarMap × List (String × Nat)) :=
  match assocs with
  | [] => .ok ([], log)
  | a :: rest => do
      let (rv, log') ← request server now log "readvar" a.association_id
      match rv.data with
      | .varMap m =>
          let (recs, log'') ← composite_loop server now rest log'
          .ok (overlayAssoc a m :: recs, log'')
      | _ => .error .typeError

/-- `composite_associnfo(host)`: one readstat request for the association
list, then the per-association readvar loop.  Returns the merged
dictionaries (the `.data` of the appended packets) together with the log of
requests sent. -/
def composite_associnfo (server : String → Nat → List Nat) (now : ℚ) :
    Except PyErr (List VarMap × List (String × Nat)) := do
  let (ncp, log) ← request server now [] "readstat" 0
  match ncp.data with
  | .assocList assocs => composite_loop server now assocs log
  | _ => .error .typeError

/-- A concrete server fixture: the readstat reply carries two association
records (ids 1 and 2), every readvar reply carries a minimal variable
body.  Used to exercise the composite aggregator end to end. -/
def demo_server (op : String) (_aid : Nat) : List Nat :=
  if op = "readstat" then
    [0, 1, 0, 0, 0, 0, 0, 0, 0, 0, 0, 0] ++ [0, 1, 0, 0] ++ [0, 2, 16, 0]
  else
    [0, 2, 0, 0, 0, 0, 0, 0, 0, 0, 0, 0] ++ strBytes "rec=c1a2b3c4.00000000"

/-- First association of the readstat fixture (bytes `00 01 00 00`). -/
def demoAssoc1 : Assoc := ⟨1, 0, 0, 0, 0, 0, 0, 0, 0⟩

/-- Second association of the readstat fixture (bytes `00 02 10 00`). -/
def demoAssoc2 : Assoc := ⟨2, 0, 0, 0, 1, 0, 0, 0, 0⟩

/-- Decoded variable dictionary of the readvar fixture at time 0. -/
def demoVm : VarMap :=
  [("rec", .num 1039676740), ("when", .num (0 - 1039676740))]

/-- Decidable equality of `Except` results, so that concrete runs of the
embedded functions can be checked by `decide`. -/
instance {ε α : Type} [DecidableEq ε] [DecidableEq α] :
    DecidableEq (Except ε α) := fun x y =>
  match x, y with
  | .ok a, .ok b => decidable_of_iff (a = b) (by simp)
  | .error a, .error b => decidable_of_iff (a = b) (by simp)
  | .ok _, .error _ => isFalse (by simp)
  | .error _, .ok _ => isFalse (by simp)

/-! ### Helper lemmas -/

theorem VarMap.get?_set_self (m : VarMap) (k : String) (v : VarVal) :
    (VarMap.set m k v).get? k = some v := by
  induction m with
  | nil => simp [VarMap.set, VarMap.get?]
  | cons kv rest ih =>
      obtain ⟨k', v'⟩ := kv
      by_cases h : k' = k <;> simp [VarMap.set, VarMap.get?, h, ih]

theorem VarMap.get?_set_ne (m : VarMap) (k' k : String) (v' : VarVal)
    (h : k' ≠ k) : (VarMap.set m k' v').get? k = m.get? k := by
  induction m with
  | nil => simp [VarMap.set, VarMap.get?, h]
  | cons kv rest ih =>
      obtain ⟨k0, v0⟩ := kv
      by_cases h0 : k0 = k' <;> simp [VarMap.set, VarMap.get?, h0, h, ih]

theorem decode_association_length_ne (l : List Nat) (h : l.length ≠ 4) :
    decode_association l = .error .structError := by
  rcases l with _ | ⟨a, _ | ⟨b, _ | ⟨c, _ | ⟨d, _ | ⟨e, t⟩⟩⟩⟩⟩ <;>
    first
      | rfl
      | exact absurd rfl h

theorem decode_association_length_eq (l : List Nat) (h : l.length = 4) :
    ∃ a, decode_association l = .ok a := by
  rcases l with _ | ⟨a, _ | ⟨b, _ | ⟨c, _ | ⟨d, _ | ⟨e, t⟩⟩⟩⟩⟩
  · simp at h
  · simp at h
  · simp at h
  · simp at h
  · exact ⟨_, rfl⟩
  · simp at h

theorem byte0_eq (v : Nat) : 0 <<< 6 ||| v <<< 3 ||| 6 = 8 * v + 6 := by
  rw [Nat.zero_shiftLeft, Nat.zero_or, Nat.shiftLeft_eq, Nat.mul_comm]
  have h := Nat.mul_add_lt_is_or (show (6 : Nat) < 2 ^ 3 by norm_num) v
  rw [show (2 : Nat) ^ 3 = 8 from rfl] at h
  exact h.symm

theorem byte0_eq' (v : Nat) : v <<< 3 ||| 6 = 8 * v + 6 := by
  have h := byte0_eq v
  rwa [Nat.zero_shiftLeft, Nat.zero_or] at h

theorem version_decode (v : Nat) (hv : v ≤ 7) :
    (8 * v + 6) >>> 3 &&& 0x7 = v := by
  revert hv
  revert v
  decide

/-! ### Claims -/

/-- Claim C9, counterexample.  The claim asserts that decoding the record
`0x00 0x14 0x1A 0x00` yields `peer_event_counter = 1` and
`peer_event_code = 10` "from byte3 = 0x1A" — but byte 3 of that input is
`0x00`, so the decoded event counter is 0, not 1, and the event code is 0,
not 10. -/
theorem claim_C9_counterexample :
    (decode_association [0x00, 0x14, 0x1A, 0x00]).map Assoc.peer_event_counter =
      .ok 0 ∧
    (Except.ok 0 : Except PyErr Nat) ≠ .ok 1 ∧
    (decode_association [0x00, 0x14, 0x1A, 0x00]).map Assoc.peer_event_code =
      .ok 0 ∧
    (Except.ok 0 : Except PyErr Nat) ≠ .ok 10 := by decide

/-- Claim C9, as amended: decoding `0x00 0x14 0x1A 0x00` yields
`association_id = 0x0014`, and from byte 2 = 0x1A the flags
`peer_config = 0`, `peer_authenable = 0`, `peer_authentic = 0`,
`peer_reach = 1`, `reserved = 1`, `peer_selection = 2`; byte 3 = 0x00 gives
`peer_event_counter = 0` and `peer_event_code = 0`. -/
theorem claim_C9_assoc_fixture :
    decode_association [0x00, 0x14, 0x1A, 0x00] =
      .ok { association_id := 0x0014, peer_config := 0, peer_authenable := 0,
            peer_authentic := 0, peer_reach := 1, reserved := 1,
            peer_selection := 2, peer_event_counter := 0,
            peer_event_code := 0 } := by decide

/-- Claim C10: `decode_association` accepts only inputs of exactly 4 bytes —
any other length (shorter or longer) raises the (uncaught) `struct.error`
of `struct.unpack("!H B B", data)`, and every 4-byte input decodes. -/
theorem claim_C10_assoc_exact_length (l : List Nat) :
    (l.length ≠ 4 → decode_association l = .error .structError) ∧
    (l.length = 4 → ∃ a, decode_association l = .ok a) :=
  ⟨decode_association_length_ne l, decode_association_length_eq l⟩

/-- Claim C10, witness: a 5-byte input (longer than 4) and a 3-byte input
(shorter) both raise, and a 4-byte input decodes. -/
theorem claim_C10_witness :
    decode_association [1, 2, 3, 4, 5] = .error .structError ∧
    decode_association [1, 2, 3] = .error .structError ∧
    (∃ a, decode_association [1, 2, 3, 4] = .ok a) :=
  ⟨(claim_C10_assoc_exact_length [1, 2, 3, 4, 5]).1 (by decide),
   (claim_C10_assoc_exact_length [1, 2, 3]).1 (by decide),
   (claim_C10_assoc_exact_length [1, 2, 3, 4]).2 (by decide)⟩

/-- Claim C8 (code bug).  The source masks the clock-source field of the
status word with `0x1f` — five bits — although its own comment says
"6 bit mask" and the claim (and RFC-1305) give clocksource bits 8–13.  On a
header whose status word is `0x2000` (bit 13 set) the decoded `clocksource`
is 0, while bits 8–13 of `0x2000` are `0x20 = 32`.  (The status leap field
is likewise masked to one bit instead of two.) -/
theorem claim_C8_clocksource_bug :
    (NTPControlPacket.new.from_data 0
        [0, 1, 0, 0, 0x20, 0x00, 0, 0, 0, 0, 0, 0]).map
      NTPControlPacket.clocksource = .ok 0 ∧
    ((0x2000 : Nat) >>> 8) &&& 0x3f = 32 := by decide

/-- Claim C7, counterexample.  The claim says `to_data` fails for every
version greater than 7 and every opcode outside `{1, 2}`, but `struct.pack`
only checks the already-combined byte values: version 8 gives first byte
`8 << 3 | 6 = 70`, well inside a `B` field, so the packet encodes without
error; likewise a packet whose `opcode` attribute is 3 encodes fine. -/
theorem claim_C7_counterexample :
    (NTPControlPacket.init 8 "readstat" 0 1).bind NTPControlPacket.to_data =
      .ok [70, 1, 0, 1, 0, 0, 0, 0, 0, 0, 0, 0] ∧
    ({ NTPControlPacket.new with opcode := 3 } : NTPControlPacket).to_data =
      .ok [22, 3, 0, 1, 0, 0, 0, 0, 0, 0, 0, 0] := by decide

/-- Claim C7, as amended: for a constructor-built request (leap 0, mode 6,
flag bits 0, status/offset/count 0, opcode from the op name), `to_data`
succeeds exactly when every packed value fits its struct field — that is,
when version ≤ 31 (byte 0 is `8*version + 6`), sequence ≤ 65535 and
association_id ≤ 65535.  In particular versions 8–31 encode without error,
and an op name outside the table is a constructor `KeyError`, not an
encoding error. -/
theorem claim_C7_encode_range (v aid seq : Nat) (op : String)
    (hop : op = "readstat" ∨ op = "readvar") :
    ∃ q, NTPControlPacket.init v op aid seq = .ok q ∧
      ((∃ d, q.to_data = .ok d) ↔ v ≤ 31 ∧ seq ≤ 65535 ∧ aid ≤ 65535) := by
  have main : ∀ oc : Nat, oc = 1 ∨ oc = 2 →
      ∀ q : NTPControlPacket,
        q = { leap := 0, version := v, mode := 6, response_bit := 0,
              error_bit := 0, more_bit := 0, opcode := oc, sequence := seq,
              status := 0, association_id := aid, offset := 0, count := 0,
              clocksource := 0, system_event_counter := 0,
              system_event_code := 0, data := .no_data } →
        ((∃ d, q.to_data = .ok d) ↔ v ≤ 31 ∧ seq ≤ 65535 ∧ aid ≤ 65535) := by
    intro oc hoc q hq
    subst hq
    unfold NTPControlPacket.to_data
    simp only [byte0_eq]
    rcases hoc with h | h <;> subst h <;>
      · simp only [show (0 : Nat) <<< 7 ||| 0 <<< 6 ||| 0 <<< 5 ||| 1 = 1 from rfl,
          show (0 : Nat) <<< 7 ||| 0 <<< 6 ||| 0 <<< 5 ||| 2 = 2 from rfl]
        split_ifs with hc
        · exact iff_of_true ⟨_, rfl⟩ (by omega)
        · refine iff_of_false ?_ (by omega)
          rintro ⟨d, hd⟩
          simp at hd
  rcases hop with h | h <;> subst h
  · exact ⟨_, rfl, main 1 (Or.inl rfl) _ rfl⟩
  · exact ⟨_, rfl, main 2 (Or.inr rfl) _ rfl⟩

/-- Claim C7, witness: version 8 with op `"readstat"`. -/
theorem claim_C7_witness :
    ∃ q, NTPControlPacket.init 8 "readstat" 0 1 = .ok q ∧
      ((∃ d, q.to_data = .ok d) ↔ 8 ≤ 31 ∧ 1 ≤ 65535 ∧ 0 ≤ 65535) :=
  claim_C7_encode_range 8 0 1 "readstat" (Or.inl rfl)

/-- Claim C4, counterexample.  The claim says an unsupported opcode makes
`from_data` fail with a `DecodeError` — in this module the decode-failure
exception is `NTPException("Invalid NTP packet.")`.  What actually escapes
on opcode 7 is the uncaught builtin `KeyError` from the
`opcodes_by_number[self.opcode]` lookup, which is not the module's
exception (though the body is indeed not silently dropped). -/
theorem claim_C4_counterexample :
    NTPControlPacket.new.from_data 0 [0, 7, 0, 0, 0, 0, 0, 0, 0, 0, 0, 0] =
      .error .keyError ∧
    PyErr.keyError ≠ PyErr.ntpException "Invalid NTP packet." := by decide

/-- Claim C4, as amended: for every input of at least the 12 header bytes
whose opcode bits (byte 1 & 0x1f) are outside `{1, 2}`, `from_data` fails
with an uncaught `KeyError` — an error, not a silently empty body, but not
the module's `NTPException`/`DecodeError`. -/
theorem claim_C4_unknown_opcode (now : ℚ)
    (b0 b1 b2 b3 b4 b5 b6 b7 b8 b9 b10 b11 : Nat) (rest : List Nat)
    (h1 : b1 &&& 0x1f ≠ 1) (h2 : b1 &&& 0x1f ≠ 2) :
    NTPControlPacket.new.from_data now
      (b0 :: b1 :: b2 :: b3 :: b4 :: b5 :: b6 :: b7 :: b8 :: b9 :: b10 ::
        b11 :: rest) = .error .keyError := by
  unfold NTPControlPacket.from_data
  rw [if_neg (by simp)]
  simp only [List.getD_cons_zero, List.getD_cons_succ]
  rw [if_neg h1, if_neg h2]

/-- Claim C4, witness: opcode byte 7. -/
theorem claim_C4_witness :
    NTPControlPacket.new.from_data 0 [0, 7, 0, 0, 0, 0, 0, 0, 0, 0, 0, 0] =
      .error .keyError :=
  claim_C4_unknown_opcode 0 0 7 0 0 0 0 0 0 0 0 0 0 [] (by decide) (by decide)

/-- Behaviour of the readstat loop on the offsets
`range(off, len(data), 4)`: when the remaining byte count `len - off` is a
multiple of 4 every slice has 4 bytes and the loop yields one association
per slice; otherwise the last slice is short and `decode_association`
raises `struct.error`. -/
theorem decode_readstat_go_spec (k : Nat) :
    ∀ (data : List Nat) (off : Nat),
      k = (data.length - off + 3) / 4 →
      (((data.length - off) % 4 = 0 →
          ∃ l, decode_readstat_go data (List.range' off k 4) = .ok l ∧
            l.length = (data.length - off) / 4) ∧
       ((data.length - off) % 4 ≠ 0 →
          decode_readstat_go data (List.range' off k 4) =
            .error .structError)) := by
  induction k with
  | zero =>
      intro data off hk
      have hn : data.length - off = 0 := by omega
      constructor
      · intro _
        refine ⟨[], rfl, ?_⟩
        simp [hn]
      · intro h
        exfalso
        omega
  | succ k ih =>
      intro data off hk
      rw [List.range'_succ]
      by_cases h4 : 4 ≤ data.length - off
      · -- full 4-byte slice, then the rest of the loop
        have hk4 : k = (data.length - (off + 4) + 3) / 4 := by omega
        have hmodeq : (data.length - (off + 4)) % 4 = (data.length - off) % 4 := by
          omega
        have hdiv : (data.length - (off + 4)) / 4 + 1 = (data.length - off) / 4 := by
          omega
        have hlen4 : ((data.drop off).take 4).length = 4 := by
          rw [List.length_take, List.length_drop]
          omega
        obtain ⟨a, ha⟩ := decode_association_length_eq _ hlen4
        have hrec := ih data (off + 4) hk4
        constructor
        · intro hmod
          obtain ⟨l, hl, hlen⟩ := hrec.1 (by rw [hmodeq, hmod])
          refine ⟨a :: l, ?_, ?_⟩
          · simp [decode_readstat_go, ha, hl]
          · rw [List.length_cons, hlen, hdiv]
        · intro hmod
          have hne2 : (data.length - (off + 4)) % 4 ≠ 0 := by
            rw [hmodeq]
            exact hmod
          have he := hrec.2 hne2
          simp [decode_readstat_go, ha, he]
      · -- short final slice: decode_association raises
        have hne : ((data.drop off).take 4).length ≠ 4 := by
          rw [List.length_take, List.length_drop]
          omega
        have he := decode_association_length_ne _ hne
        constructor
        · intro hmod
          exfalso
          omega
        · intro _
          simp [decode_readstat_go, he]

/-- Claim C3, counterexample.  The claim says a trailing partial chunk is
ignored without error and a 5-byte READSTAT body decodes to exactly one
record; in fact the loop slices `data[16:17]` (one byte), and
`struct.unpack("!H B B", ...)` on it raises an uncaught `struct.error`. -/
theorem claim_C3_counterexample :
    NTPControlPacket.new.from_data 0
      ([0, 1, 0, 0, 0, 0, 0, 0, 0, 0, 0, 0] ++ [0, 20, 26, 0, 7]) =
      .error .structError := by decide

/-- Claim C3, as amended: the READSTAT body is decoded as consecutive
4-byte association records, but a trailing partial chunk is NOT ignored —
it makes the decode fail with an uncaught `struct.error`.  A body whose
length is a multiple of 4 yields length/4 records; any other body length
(in particular 5) raises. -/
theorem claim_C3_readstat_chunks (data : List Nat) :
    (((data.length - 12) % 4 = 0 →
        ∃ l, decode_readstat 12 data = .ok l ∧
          l.length = (data.length - 12) / 4) ∧
     ((data.length - 12) % 4 ≠ 0 →
        decode_readstat 12 data = .error .structError)) :=
  decode_readstat_go_spec ((data.length - 12 + 3) / 4) data 12 rfl

/-- Claim C3, witness: a 4-byte body gives one record; a 5-byte body
raises `struct.error`. -/
theorem claim_C3_witness :
    (∃ l, decode_readstat 12
        [0, 1, 0, 0, 0, 0, 0, 0, 0, 0, 0, 0, 0, 20, 26, 0] = .ok l ∧
        l.length = 1) ∧
    decode_readstat 12
        [0, 1, 0, 0, 0, 0, 0, 0, 0, 0, 0, 0, 0, 20, 26, 0, 7] =
      .error .structError :=
  ⟨(claim_C3_readstat_chunks
      [0, 1, 0, 0, 0, 0, 0, 0, 0, 0, 0, 0, 0, 20, 26, 0]).1 (by decide),
   (claim_C3_readstat_chunks
      [0, 1, 0, 0, 0, 0, 0, 0, 0, 0, 0, 0, 0, 20, 26, 0, 7]).2 (by decide)⟩

/-- Claim C6, counterexample.  The claim says a segment is split once on
the FIRST `=` so a value may itself contain `=`.  In fact
`d.split("=")` splits on every `=`, and the 2-tuple unpacking of a 3-part
split raises `ValueError`: with the body
`rec=c1a2b3c4.00000000,x=y=z`, which the claim would parse as
`x = "y=z"`, decoding fails. -/
theorem claim_C6_counterexample :
    decode_readvar 0 0 (strBytes "rec=c1a2b3c4.00000000,x=y=z") =
      .error .valueError := by decide

/-- Claim C6, as amended: each comma-separated segment has every `\r\n`
removed and leading whitespace stripped, and is then split on EVERY `=`;
the segment parses only when that split has exactly two parts (exactly one
`=`, so a value cannot contain `=`), the key becoming the first part and
the value the second (stored raw for non-timestamp keys).  Any other
number of `=` raises the uncaught builtin `ValueError` (the module defines
no `FormatError`). -/
theorem claim_C6_segment_split (m : VarMap) (d : List Char) :
    ((pySplit '=' (pyLstrip (removeCRLF d))).length ≠ 2 →
        processSegment m d = .error .valueError) ∧
    (∀ k v, pySplit '=' (pyLstrip (removeCRLF d)) = [k, v] →
        String.mk k ≠ "rec" → String.mk k ≠ "reftime" →
        processSegment m d =
          .ok (VarMap.set m (String.mk k) (.str (String.mk v)))) := by
  constructor
  · intro h
    unfold processSegment
    rcases hs : pySplit '=' (pyLstrip (removeCRLF d)) with _ | ⟨k, _ | ⟨v, _ | rest⟩⟩ <;>
      first | rfl | exact absurd (by rw [hs]; rfl) h
  · intro k v hs h1 h2
    unfold processSegment
    rw [hs]
    simp [h1, h2]

/-- Claim C6, witness: `ab` (no `=`) raises; `a=b` parses to key `a`,
value `b`. -/
theorem claim_C6_witness :
    processSegment [] ['a', 'b'] = .error .valueError ∧
    processSegment [] ['a', '=', 'b'] =
      .ok (VarMap.set [] (String.mk ['a']) (.str (String.mk ['b']))) :=
  ⟨(claim_C6_segment_split [] ['a', 'b']).1 (by decide),
   (claim_C6_segment_split [] ['a', '=', 'b']).2 ['a'] ['b']
     (by decide) (by decide) (by decide)⟩

/-- Claim C5: parsing the readvar body
`rec=c1a2b3c4.00000000,leap=0\r\n` stores under `rec` the converted
numeric timestamp `0xc1a2b3c4 - 2208988800 = 1039676740` (a number, not
the raw string), under `leap` the literal string `"0"`, and adds a `when`
entry equal to the current time minus the `rec` timestamp.  The NTP-time
conversion helpers are modelled from the spec (their source lives in the
`ntplib` module, outside this file's repository slice). -/
theorem claim_C5_readvar_fixture (now : ℚ) :
    decode_readvar now 0 (strBytes "rec=c1a2b3c4.00000000,leap=0\r\n") =
      .ok [("rec", .num 1039676740), ("leap", .str "0"),
           ("when", .num (now - 1039676740))] := by
  have hfix : ntp_to_system_time (to_time 3248665540 0) = 1039676740 := by
    unfold ntp_to_system_time to_time NTP_DELTA
    norm_num
  have h1 : decode_readvar now 0 (strBytes "rec=c1a2b3c4.00000000,leap=0\r\n") =
      .ok [("rec", .num (ntp_to_system_time (to_time 3248665540 0))),
           ("leap", .str "0"),
           ("when", .num (now - ntp_to_system_time (to_time 3248665540 0)))] := rfl
  rw [h1, hfix]

/-- `to_data` on a constructor-shaped request packet with in-range fields:
byte 0 is `8*version + 6`, byte 1 the opcode, then big-endian sequence,
status 0, association_id, offset 0, count 0. -/
theorem to_data_request (v aid seq oc : Nat) (hv : v ≤ 7) (haid : aid ≤ 65535)
    (hseq : seq ≤ 65535) (hoc : oc ≤ 255) :
    NTPControlPacket.to_data
      { leap := 0, version := v, mode := 6, response_bit := 0, error_bit := 0,
        more_bit := 0, opcode := oc, sequence := seq, status := 0,
        association_id := aid, offset := 0, count := 0, clocksource := 0,
        system_event_counter := 0, system_event_code := 0, data := .no_data } =
      .ok [8 * v + 6, oc, seq / 256, seq % 256, 0, 0, aid / 256, aid % 256,
           0, 0, 0, 0] := by
  unfold NTPControlPacket.to_data
  simp only [Nat.zero_shiftLeft, Nat.zero_or, byte0_eq']
  rw [if_pos ⟨by omega, hoc, hseq, by omega, haid, by omega, by omega⟩]
  simp [packH]

/-- `from_data` on a 12-byte header whose opcode byte is 1 (readstat) and
whose status/offset/count bytes are zero: the header round-trips into the
packet fields and the empty body decodes to an empty association list. -/
theorem from_data_readstat_req (now : ℚ) (b0 s1 s2 a1 a2 : Nat) :
    NTPControlPacket.new.from_data now
      [b0, 1, s1, s2, 0, 0, a1, a2, 0, 0, 0, 0] =
      .ok { leap := 0, version := b0 >>> 3 &&& 0x7, mode := b0 &&& 0x7,
            response_bit := 0, error_bit := 0, more_bit := 0, opcode := 1,
            sequence := s1 * 256 + s2, status := 0,
            association_id := a1 * 256 + a2, offset := 0, count := 0,
            clocksource := 0, system_event_counter := 0,
            system_event_code := 0, data := .assocList [] } := by
  unfold NTPControlPacket.from_data
  norm_num [List.getD, decode_readstat, decode_readstat_go,
    NTPControlPacket.new]
  decide

/-- `from_data` on a 12-byte header whose opcode byte is 2 (readvar): the
empty body makes `decode_readvar` raise `ValueError` at the 2-tuple
unpacking of the empty segment. -/
theorem from_data_readvar_req (now : ℚ) (b0 s1 s2 a1 a2 : Nat) :
    NTPControlPacket.new.from_data now
      [b0, 2, s1, s2, 0, 0, a1, a2, 0, 0, 0, 0] = .error .valueError := by
  unfold NTPControlPacket.from_data
  norm_num [List.getD, decode_readvar, pySplit, processSegment, removeCRLF,
    pyLstrip, NTPControlPacket.new, Except.instMonad, Except.bind,
    show (2 &&& 31 : Nat) = 2 from rfl]

/-- Claim C1, counterexample.  Encoding the readvar request
`(version 2, op readvar, association 0, sequence 1)` succeeds, but decoding
those very bytes raises `ValueError`: `from_data` dispatches on the opcode
even for a bodiless request, and `decode_readvar` crashes unpacking the
empty text.  So `Decode(Encode(...))` does not recover the fields for
op = READVAR. -/
theorem claim_C1_counterexample :
    (NTPControlPacket.init 2 "readvar" 0 1).bind NTPControlPacket.to_data =
      .ok [22, 2, 0, 1, 0, 0, 0, 0, 0, 0, 0, 0] ∧
    NTPControlPacket.new.from_data 0 [22, 2, 0, 1, 0, 0, 0, 0, 0, 0, 0, 0] =
      .error .valueError := by decide

/-- Claim C1, as amended: for every valid version ≤ 7, association_id and
sequence ≤ 65535, the encode/decode round trip recovers version, opcode,
association_id and sequence for op = READSTAT; for op = READVAR the header
encodes identically but decoding the encoded request fails with an
uncaught `ValueError` on the empty body, so nothing is recovered. -/
theorem claim_C1_roundtrip (v id seq : Nat) (now : ℚ)
    (hv : v ≤ 7) (hid : id ≤ 65535) (hseq : seq ≤ 65535) :
    (∃ q d p, NTPControlPacket.init v "readstat" id seq = .ok q ∧
        q.to_data = .ok d ∧ NTPControlPacket.new.from_data now d = .ok p ∧
        p.version = v ∧ p.opcode = 1 ∧ p.association_id = id ∧
        p.sequence = seq) ∧
    (∃ q d, NTPControlPacket.init v "readvar" id seq = .ok q ∧
        q.to_data = .ok d ∧
        NTPControlPacket.new.from_data now d = .error .valueError) := by
  constructor
  · refine ⟨_, _, _, rfl, to_data_request v id seq 1 hv hid hseq (by omega),
      from_data_readstat_req now _ _ _ _ _, ?_, rfl, ?_, ?_⟩
    · show (8 * v + 6) >>> 3 &&& 0x7 = v
      exact version_decode v hv
    · show (id / 256) * 256 + id % 256 = id
      omega
    · show (seq / 256) * 256 + seq % 256 = seq
      omega
  · exact ⟨_, _, rfl, to_data_request v id seq 2 hv hid hseq (by omega),
      from_data_readvar_req now _ _ _ _ _⟩

/-- Claim C1, witness: version 3, association 7, sequence 5. -/
theorem claim_C1_witness :
    (∃ q d p, NTPControlPacket.init 3 "readstat" 7 5 = .ok q ∧
        q.to_data = .ok d ∧ NTPControlPacket.new.from_data 0 d = .ok p ∧
        p.version = 3 ∧ p.opcode = 1 ∧ p.association_id = 7 ∧
        p.sequence = 5) ∧
    (∃ q d, NTPControlPacket.init 3 "readvar" 7 5 = .ok q ∧
        q.to_data = .ok d ∧
        NTPControlPacket.new.from_data 0 d = .error .valueError) :=
  claim_C1_roundtrip 3 7 5 0 (by decide) (by decide) (by decide)

/-- Overlaying an association onto any dictionary makes every one of the
association's own key/value pairs win: the status keys are assigned after
the variable data is seeded, so they overwrite any same-named entry. -/
theorem VarMap.get?_overlay (a : Assoc) (m : VarMap) (k : String) (v : VarVal)
    (h : (k, v) ∈ Assoc.items a) :
    VarMap.get? (overlayAssoc a m) k = some v := by
  simp only [Assoc.items, List.mem_cons, List.mem_singleton, Prod.mk.injEq,
    List.not_mem_nil, or_false] at h
  unfold overlayAssoc Assoc.items
  simp only [List.foldl]
  rcases h with ⟨hk, hv⟩ | ⟨hk, hv⟩ | ⟨hk, hv⟩ | ⟨hk, hv⟩ | ⟨hk, hv⟩ |
    ⟨hk, hv⟩ | ⟨hk, hv⟩ | ⟨hk, hv⟩ | ⟨hk, hv⟩ <;> subst hk <;> subst hv <;>
    simp [VarMap.get?_set_ne, VarMap.get?_set_self]

/-- A successful exchange: when the op name is valid, the association id
fits its field and the server's reply decodes, `request` returns the
decoded packet and appends exactly one entry to the send log. -/
theorem request_ok (server : String → Nat → List Nat) (now : ℚ)
    (log : List (String × Nat)) (op : String) (aid : Nat)
    (p : NTPControlPacket)
    (hop : op = "readstat" ∨ op = "readvar") (haid : aid ≤ 65535)
    (hresp : NTPControlPacket.new.from_data now (server op aid) = .ok p) :
    request server now log op aid = .ok (p, log ++ [(op, aid)]) := by
  rcases hop with h | h <;> subst h
  · unfold request
    simp only [NTPControlPacket.init, OPCODES, Except.instMonad, Except.bind]
    norm_num
    rw [to_data_request 2 aid 1 1 (by omega) haid (by omega) (by omega)]
    simp [Except.bind, hresp]
  · unfold request
    simp only [NTPControlPacket.init, OPCODES, Except.instMonad, Except.bind]
    rw [if_neg (show ¬("readvar" = "readstat") from by decide)]
    simp only [if_true]
    rw [to_data_request 2 aid 1 2 (by omega) haid (by omega) (by omega)]
    simp [Except.bind, hresp]

/-- The per-association loop of the aggregator: one readvar request per
association in order, each merged record appended in the same order. -/
theorem composite_loop_ok (server : String → Nat → List Nat) (now : ℚ)
    (vm : Assoc → VarMap) :
    ∀ (assocs : List Assoc) (log : List (String × Nat)),
      (∀ a ∈ assocs, a.association_id ≤ 65535) →
      (∀ a ∈ assocs,
        (NTPControlPacket.new.from_data now
            (server "readvar" a.association_id)).map NTPControlPacket.data =
          .ok (.varMap (vm a))) →
      composite_loop server now assocs log =
        .ok (assocs.map (fun a => overlayAssoc a (vm a)),
             log ++ assocs.map (fun a => ("readvar", a.association_id))) := by
  intro assocs
  induction assocs with
  | nil => intro log _ _; simp [composite_loop]
  | cons a rest ih =>
      intro log haid hvar
      have ha := haid a (by simp)
      have hv := hvar a (by simp)
      obtain ⟨p, hp, hdat⟩ : ∃ p,
          NTPControlPacket.new.from_data now
            (server "readvar" a.association_id) = .ok p ∧
          p.data = .varMap (vm a) := by
        cases hfd : NTPControlPacket.new.from_data now
            (server "readvar" a.association_id) with
        | ok q =>
            refine ⟨q, rfl, ?_⟩
            rw [hfd] at hv
            simpa [Except.map] using hv
        | error e => rw [hfd] at hv; simp [Except.map] at hv
      rw [composite_loop]
      rw [request_ok server now log "readvar" a.association_id p
        (Or.inr rfl) ha hp]
      simp only [Except.instMonad, Except.bind, hdat]
      rw [ih (log ++ [("readvar", a.association_id)])
        (fun b hb => haid b (by simp [hb]))
        (fun b hb => hvar b (by simp [hb]))]
      simp

/-- Claim C2: when the readstat reply decodes to N association records and
every readvar reply decodes to a dictionary, `composite_associnfo` sends
exactly `1 + N` requests — the readstat first, then one readvar per
association in READSTAT order — and returns the N merged records in that
same order, each being the readvar dictionary with the association's
fields overlaid so that status fields overwrite same-named keys. -/
theorem claim_C2_composite (server : String → Nat → List Nat) (now : ℚ)
    (assocs : List Assoc) (vm : Assoc → VarMap)
    (hstat : (NTPControlPacket.new.from_data now (server "readstat" 0)).map
        NTPControlPacket.data = .ok (.assocList assocs))
    (haid : ∀ a ∈ assocs, a.association_id ≤ 65535)
    (hvar : ∀ a ∈ assocs,
      (NTPControlPacket.new.from_data now
          (server "readvar" a.association_id)).map NTPControlPacket.data =
        .ok (.varMap (vm a))) :
    composite_associnfo server now =
      .ok (assocs.map (fun a => overlayAssoc a (vm a)),
           ("readstat", 0) ::
             assocs.map (fun a => ("readvar", a.association_id))) ∧
    (("readstat", 0) ::
        assocs.map (fun a => ("readvar", a.association_id))).length =
      1 + assocs.length ∧
    (∀ a m k v, (k, v) ∈ Assoc.items a →
      VarMap.get? (overlayAssoc a m) k = some v) := by
  refine ⟨?_, by simp [Nat.add_comm],
    fun a m k v h => VarMap.get?_overlay a m k v h⟩
  obtain ⟨p, hp, hdat⟩ : ∃ p,
      NTPControlPacket.new.from_data now (server "readstat" 0) = .ok p ∧
      p.data = .assocList assocs := by
    cases hfd : NTPControlPacket.new.from_data now (server "readstat" 0) with
    | ok q =>
        refine ⟨q, rfl, ?_⟩
        rw [hfd] at hstat
        simpa [Except.map] using hstat
    | error e => rw [hfd] at hstat; simp [Except.map] at hstat
  unfold composite_associnfo
  rw [request_ok server now [] "readstat" 0 p (Or.inl rfl) (by omega) hp]
  simp only [Except.instMonad, Except.bind, hdat, List.nil_append]
  rw [composite_loop_ok server now vm assocs [("readstat", 0)] haid hvar]
  simp

/-- Every readvar reply of the demo server decodes to the fixture
dictionary (the reply does not depend on the association id). -/
theorem demo_readvar_eval (aid : Nat) :
    (NTPControlPacket.new.from_data 0 (demo_server "readvar" aid)).map
      NTPControlPacket.data = .ok (.varMap demoVm) := by
  have hfix : ntp_to_system_time (to_time 3248665540 0) = 1039676740 := by
    unfold ntp_to_system_time to_time NTP_DELTA
    norm_num
  have h1 : (NTPControlPacket.new.from_data 0 (demo_server "readvar" aid)).map
      NTPControlPacket.data =
      .ok (.varMap
        [("rec", .num (ntp_to_system_time (to_time 3248665540 0))),
         ("when", .num (0 - ntp_to_system_time (to_time 3248665540 0)))]) := by
    unfold demo_server
    rw [if_neg (show ¬("readvar" = "readstat") from by decide)]
    rfl
  rw [h1, hfix]
  rfl

/-- Claim C2, witness: a server replying with two association records makes
the aggregator send exactly 3 requests (readstat then readvar 1, readvar 2)
and return 2 records in READSTAT order. -/
theorem claim_C2_witness :
    composite_associnfo demo_server 0 =
      .ok ([demoAssoc1, demoAssoc2].map (fun a => overlayAssoc a demoVm),
           ("readstat", 0) :: [demoAssoc1, demoAssoc2].map
             (fun a => ("readvar", a.association_id))) ∧
    (("readstat", 0) :: [demoAssoc1, demoAssoc2].map
        (fun a => ("readvar", a.association_id))).length =
      1 + [demoAssoc1, demoAssoc2].length ∧
    (∀ a m k v, (k, v) ∈ Assoc.items a →
      VarMap.get? (overlayAssoc a m) k = some v) :=
  claim_C2_composite demo_server 0 [demoAssoc1, demoAssoc2] (fun _ => demoVm)
    (by decide) (by decide) (fun a _ => demo_readvar_eval a.association_id)
